import Mathlib

/-!
Verification development for the apiGateway repository.

Shallow embedding of the request pipeline and its stateful controllers:
the per-service circuit breaker (`src/circuit-breaker/circuitBreaker.js`),
the rate limiter / quota accountant (`src/middleware/rateLimiter.js`),
the response cache (`src/cache/cacheManager.js`), and the middleware
assembly order of the Express app (`src/apiGateway.js`).

Times are modelled as natural-number milliseconds (JS `Date.now()`),
counters as naturals, the JS floating-point error-rate computation as an
exact rational (all quantities involved are small integers, where JS
doubles are exact), and JS `x || default` on numeric config fields as
`Option Nat` with `0` and `undefined` both falsy.
-/

namespace ApiGateway

/-! ## Circuit breaker (`src/circuit-breaker/circuitBreaker.js`) -/

/-- The three circuit states (`CLOSED`, `OPEN`, `HALF_OPEN`). -/
inductive CBState where
  | CLOSED
  | OPEN
  | HALF_OPEN
deriving DecidableEq, Repr

/-- Resolved per-circuit configuration (the `config` object stored in each
circuit by `getCircuit`). -/
structure CBConfig where
  timeout : Nat
  errorThreshold : Nat
  errorCount : Nat
  resetTimeout : Nat
  halfOpenRequests : Nat
deriving DecidableEq, Repr

/-- A circuit record as created by `getCircuit`: state, failure/success
counters, timestamps, half-open permit counter and resolved config. -/
structure Circuit where
  state : CBState
  failures : Nat
  successes : Nat
  lastFailureTime : Option Nat
  lastStateChange : Nat
  halfOpenRequests : Nat
  config : CBConfig
deriving DecidableEq, Repr

/-- One entry of the `stats.stateChanges` log pushed on each transition. -/
structure StateChange where
  fromState : CBState
  toState : CBState
deriving DecidableEq, Repr

/-- `transitionToOpen` (lines 263-281): mutates `circuit.state` to `'OPEN'`
and resets `lastStateChange`/`halfOpenRequests` BEFORE pushing the
state-change log entry, whose `from` field therefore reads the already
mutated `circuit.state`. -/
def transitionToOpen (now : Nat) (c : Circuit) : Circuit × StateChange :=
  let c' : Circuit :=
    { c with state := .OPEN, lastStateChange := now, halfOpenRequests := 0 }
  (c', { fromState := c'.state, toState := .OPEN })

/-- `transitionToHalfOpen` (lines 286-306): captures `previousState` before
mutating, then resets counters and stamps `lastStateChange`. -/
def transitionToHalfOpen (now : Nat) (c : Circuit) : Circuit × StateChange :=
  ({ c with state := .HALF_OPEN, lastStateChange := now, failures := 0,
            successes := 0, halfOpenRequests := 0 },
   { fromState := c.state, toState := .HALF_OPEN })

/-- `transitionToClosed` (lines 311-331). -/
def transitionToClosed (now : Nat) (c : Circuit) : Circuit × StateChange :=
  ({ c with state := .CLOSED, lastStateChange := now, failures := 0,
            successes := 0, halfOpenRequests := 0 },
   { fromState := c.state, toState := .CLOSED })

/-- The error rate `(circuit.failures / (circuit.failures + circuit.successes)) * 100`
computed in `recordFailure` (line 241), as an exact rational. -/
def errorRate (failures successes : Nat) : ℚ :=
  ((failures : ℚ) / ((failures : ℚ) + (successes : ℚ))) * 100

/-- `recordFailure` (lines 222-258): increments `failures`, stamps
`lastFailureTime`; in `CLOSED` opens the circuit when
`failures >= errorCount && errorRate >= errorThreshold` (with the already
incremented counter); in `HALF_OPEN` any failure opens the circuit. -/
def recordFailure (now : Nat) (c : Circuit) : Circuit :=
  let c1 : Circuit := { c with failures := c.failures + 1, lastFailureTime := some now }
  match c1.state with
  | .CLOSED =>
      if c1.failures ≥ c1.config.errorCount ∧
         errorRate c1.failures c1.successes ≥ (c1.config.errorThreshold : ℚ) then
        (transitionToOpen now c1).1
      else c1
  | .HALF_OPEN => (transitionToOpen now c1).1
  | .OPEN => c1

/-- `recordSuccess` (lines 194-217): increments `successes`; in `HALF_OPEN`
closes the circuit once `successes >= halfOpenRequests`; afterwards, if the
state is `CLOSED`, resets the failure counter. -/
def recordSuccess (now : Nat) (c : Circuit) : Circuit :=
  let c1 : Circuit := { c with successes := c.successes + 1 }
  let c2 : Circuit :=
    if c1.state = .HALF_OPEN ∧ c1.successes ≥ c1.config.halfOpenRequests then
      (transitionToClosed now c1).1
    else c1
  if c2.state = .CLOSED then { c2 with failures := 0 } else c2

/-- Result of the circuit gate on an incoming request. -/
inductive GateResult where
  | proceed
  | rejected
deriving DecidableEq, Repr

/-- The OPEN-state gate shared by `middleware()` (lines 94-102) and
`execute` (lines 122-133): when the circuit is `OPEN`, a request at time
`now` is rejected unless `now - lastStateChange >= resetTimeout`, in which
case the circuit transitions to `HALF_OPEN` and the request proceeds.
The subtraction is JS signed arithmetic, modelled in `ℤ`. -/
def openGate (now : Nat) (c : Circuit) : GateResult × Circuit :=
  match c.state with
  | .OPEN =>
      if (c.config.resetTimeout : ℤ) ≤ (now : ℤ) - (c.lastStateChange : ℤ) then
        (.proceed, (transitionToHalfOpen now c).1)
      else
        (.rejected, c)
  | _ => (.proceed, c)

/-- Raw (user-supplied) circuit-breaker configuration: every numeric field
may be absent (`undefined`). -/
structure CBUserConfig where
  timeout : Option Nat := none
  errorThreshold : Option Nat := none
  errorCount : Option Nat := none
  resetTimeout : Option Nat := none
  halfOpenRequests : Option Nat := none
deriving DecidableEq, Repr

/-- JS `x || d` on an optional numeric field: `undefined` and `0` are both
falsy and yield the default. -/
def orDefault (x : Option Nat) (d : Nat) : Nat :=
  match x with
  | none => d
  | some n => if n = 0 then d else n

/-- The constructor's config resolution (`CircuitBreaker.constructor`,
lines 4-19): each field is `config.f || default`. The constructor performs
no validation and never throws; it is total. -/
def mkCBConfig (cfg : CBUserConfig) : CBConfig :=
  { timeout := orDefault cfg.timeout 5000
    errorThreshold := orDefault cfg.errorThreshold 50
    errorCount := orDefault cfg.errorCount 5
    resetTimeout := orDefault cfg.resetTimeout 60000
    halfOpenRequests := orDefault cfg.halfOpenRequests 3 }

/-- Per-service config resolution inside `getCircuit` (lines 51-57):
`serviceConfig.f || this.config.f` over the constructor-resolved base. -/
def mkCircuitConfig (svc : CBUserConfig) (base : CBConfig) : CBConfig :=
  { timeout := orDefault svc.timeout base.timeout
    errorThreshold := orDefault svc.errorThreshold base.errorThreshold
    errorCount := orDefault svc.errorCount base.errorCount
    resetTimeout := orDefault svc.resetTimeout base.resetTimeout
    halfOpenRequests := orDefault svc.halfOpenRequests base.halfOpenRequests }

/-- The fresh circuit created by `getCircuit` (lines 44-58). -/
def freshCircuit (now : Nat) (svc : CBUserConfig) (base : CBConfig) : Circuit :=
  { state := .CLOSED, failures := 0, successes := 0, lastFailureTime := none,
    lastStateChange := now, halfOpenRequests := 0,
    config := mkCircuitConfig svc base }

/-! ## Rate limiter (`src/middleware/rateLimiter.js`) -/

/-- Quota configuration (window length and request limit), as in
`config.perUser` / `config.perApiKey` and per-API-key overrides. -/
structure QuotaConfig where
  windowMs : Nat
  maxRequests : Nat
deriving DecidableEq, Repr

/-- A quota bucket as stored in `this.quotas` (lines 133-139). -/
structure Quota where
  requests : Nat
  windowStart : Nat
  resetTime : Nat
  limit : Nat
deriving DecidableEq, Repr

/-- The fixed-window start `Math.floor(now / windowMs) * windowMs`
(line 128); `Nat` division is the floor. -/
def windowStartOf (windowMs now : Nat) : Nat :=
  now / windowMs * windowMs

/-- The quota info object returned by `checkQuota` (lines 145-154);
`remaining` is `Math.max(0, limit - requests)`, which truncated `Nat`
subtraction computes directly. -/
structure QuotaInfo where
  limit : Nat
  remaining : Nat
  reset : Nat
  window : Nat
deriving DecidableEq, Repr

/-- The freshly re-initialized bucket of `checkQuota` (lines 133-139),
before the increment. -/
def freshQuota (qc : QuotaConfig) (ws : Nat) : Quota :=
  { requests := 0
    windowStart := ws
    resetTime := ws + qc.windowMs
    limit := qc.maxRequests }

/-- The lazy re-initialization of `checkQuota` (line 132): keep the stored
bucket only when it exists and its `windowStart` equals the computed one;
otherwise start a fresh bucket for the current window. -/
def activeBucket (qc : QuotaConfig) (now : Nat) (st : Option Quota) : Quota :=
  let ws := windowStartOf qc.windowMs now
  match st with
  | some q => if q.windowStart = ws then q else freshQuota qc ws
  | none => freshQuota qc ws

/-- The bucket update of `checkQuota` (lines 127-154) for one key: lazily
re-initialize the bucket when absent or when its stored `windowStart`
differs from the computed one, increment `requests`, and allow iff
`requests <= limit`. Returns the allow flag, the quota info and the
updated bucket. -/
def checkQuotaBucket (qc : QuotaConfig) (now : Nat) (st : Option Quota) :
    Bool × QuotaInfo × Quota :=
  let q := activeBucket qc now st
  let q' : Quota := { q with requests := q.requests + 1 }
  (decide (q'.requests ≤ q'.limit),
   { limit := q'.limit, remaining := q'.limit - q'.requests,
     reset := q'.resetTime, window := qc.windowMs },
   q')

/-- The authenticated principal visible to the rate limiter (`req.user`):
id, auth method, and the optional per-API-key quota override. -/
structure Principal where
  id : String
  isApiKey : Bool
  apiKeyKey : String := ""
  apiKeyRateLimit : Option QuotaConfig := none
deriving DecidableEq, Repr

/-- Result of `checkQuota` as consumed by the middleware: the allow flag
and the optional quota object. -/
structure QuotaResult where
  allowed : Bool
  quota : Option QuotaInfo
  message : String
deriving DecidableEq, Repr

/-- `checkQuota` (lines 113-155): with no authenticated user it returns
`{ allowed: true }` (no quota object) and touches no bucket; otherwise it
picks the key and config (per-API-key override or `perUser` default) and
updates that key's bucket. The bucket store is a single key's state here:
`st` is the bucket stored under the key this request maps to. -/
def checkQuota (perUser perApiKey : QuotaConfig) (user : Option Principal)
    (now : Nat) (st : Option Quota) : QuotaResult × Option Quota :=
  match user with
  | none => ({ allowed := true, quota := none, message := "" }, st)
  | some u =>
      let qc : QuotaConfig :=
        if u.isApiKey then
          match u.apiKeyRateLimit with
          | some o => o
          | none => perApiKey
        else perUser
      let (allowed, info, q') := checkQuotaBucket qc now st
      ({ allowed := allowed, quota := some info,
         message := if allowed then "Request allowed" else "Quota exceeded" },
       some q')

/-- A terminal 429 response produced by the middleware on quota denial
(lines 89-96): status, the headers set on the response by the rate
limiter, and the JSON body fields. -/
structure DenyResponse where
  status : Nat
  headers : List (String × String)
  bodyError : String
  bodyMessage : String
  bodyQuota : Option QuotaInfo
deriving DecidableEq, Repr

/-- The quota branch of `middleware()` (lines 87-104): on deny, a terminal
429 JSON response whose body carries the error, message and quota object —
no headers are set on it; on allow, the `X-RateLimit-*` headers are set
(when a quota object is present) and the request proceeds. -/
def quotaGate (qr : QuotaResult) : DenyResponse ⊕ List (String × String) :=
  if qr.allowed then
    Sum.inr
      (match qr.quota with
       | some q =>
           [("X-RateLimit-Limit", toString q.limit),
            ("X-RateLimit-Remaining", toString q.remaining),
            ("X-RateLimit-Reset", toString q.reset)]
       | none => [])
  else
    Sum.inl
      { status := 429, headers := [], bodyError := "Quota Exceeded",
        bodyMessage := qr.message, bodyQuota := qr.quota }

/-- Headers carried by the rate limiter's output: the terminal response's
headers on deny, the decoration headers on allow. -/
def quotaGateHeaders (r : DenyResponse ⊕ List (String × String)) :
    List (String × String) :=
  match r with
  | Sum.inl resp => resp.headers
  | Sum.inr hs => hs

/-- Status of the rate limiter's output (`0` when the request proceeds). -/
def quotaGateStatus (r : DenyResponse ⊕ List (String × String)) : Nat :=
  match r with
  | Sum.inl resp => resp.status
  | Sum.inr _ => 0

/-- Count, over a list of request times, how many calls to
`checkQuotaBucket` on one key report `allowed`, threading the bucket. -/
def countAllowed (qc : QuotaConfig) (st : Option Quota) : List Nat → Nat
  | [] => 0
  | t :: ts =>
      let (a, _, q') := checkQuotaBucket qc t st
      (if a then 1 else 0) + countAllowed qc (some q') ts

/-! ## Response cache (`src/cache/cacheManager.js`) -/

/-- UTF-8 encoding of one character, as `Buffer.from(string)` uses. -/
def utf8Bytes (c : Char) : List Nat :=
  let n := c.toNat
  if n < 128 then [n]
  else if n < 2048 then [192 + n / 64, 128 + n % 64]
  else if n < 65536 then [224 + n / 4096, 128 + n / 64 % 64, 128 + n % 64]
  else [240 + n / 262144, 128 + n / 4096 % 64, 128 + n / 64 % 64, 128 + n % 64]

/-- UTF-8 bytes of a string. -/
def strBytes (s : String) : List Nat :=
  (s.data.map utf8Bytes).flatten

/-- The base64 alphabet. -/
def b64Alphabet : List Char :=
  "ABCDEFGHIJKLMNOPQRSTUVWXYZabcdefghijklmnopqrstuvwxyz0123456789+/".data

/-- One base64 digit. -/
def b64Char (n : Nat) : Char :=
  b64Alphabet.getD n 'A'

/-- Standard base64 of a byte list with `=` padding, as
`Buffer.prototype.toString('base64')` produces. -/
def b64Encode : List Nat → List Char
  | [] => []
  | [b1] => [b64Char (b1 / 4), b64Char (b1 % 4 * 16), '=', '=']
  | [b1, b2] =>
      [b64Char (b1 / 4), b64Char (b1 % 4 * 16 + b2 / 16),
       b64Char (b2 % 16 * 4), '=']
  | b1 :: b2 :: b3 :: rest =>
      b64Char (b1 / 4) :: b64Char (b1 % 4 * 16 + b2 / 16) ::
      b64Char (b2 % 16 * 4 + b3 / 64) :: b64Char (b3 % 64) :: b64Encode rest

/-- `Buffer.from(s).toString('base64')`. -/
def base64 (s : String) : String :=
  String.mk (b64Encode (strBytes s))

/-- Hexadecimal digit (uppercase), for percent-escapes. -/
def hexDigit (n : Nat) : Char :=
  "0123456789ABCDEF".data.getD n '0'

/-- `application/x-www-form-urlencoded` escaping of one character, as
`URLSearchParams.prototype.toString` performs: ASCII alphanumerics and
`*`, `-`, `.`, `_` are kept, space becomes `+`, everything else is
percent-escaped byte-wise over its UTF-8 encoding. -/
def formEncodeChar (c : Char) : List Char :=
  if ('a' ≤ c ∧ c ≤ 'z') ∨ ('A' ≤ c ∧ c ≤ 'Z') ∨ ('0' ≤ c ∧ c ≤ '9') ∨
     c = '*' ∨ c = '-' ∨ c = '.' ∨ c = '_' then [c]
  else if c = ' ' then ['+']
  else
    ((utf8Bytes c).map (fun b => ['%', hexDigit (b / 16), hexDigit (b % 16)])).flatten

/-- Form-urlencode a whole string. -/
def formEncode (s : String) : String :=
  String.mk ((s.data.map formEncodeChar).flatten)

/-- `new URLSearchParams(query).toString()`: `k=v` pairs joined with `&`,
keys and values form-urlencoded, in the iteration order of the query
object. -/
def urlSearchParamsToString (query : List (String × String)) : String :=
  String.intercalate "&"
    (query.map (fun kv => formEncode kv.1 ++ "=" ++ formEncode kv.2))

/-- `generateCacheKey` (lines 210-216): `keyPrefix + base64(method + ':' +
path + queryString)` where `queryString` is `'?' + URLSearchParams(query)`
when the query object is non-empty and `''` otherwise. The query is
serialized in the object's own iteration order — it is NOT sorted — and no
request header participates in the key. -/
def generateCacheKey (keyPrefix method path : String)
    (query : List (String × String)) : String :=
  let baseKey := method ++ ":" ++ path
  let queryString :=
    if query.length > 0 then "?" ++ urlSearchParamsToString query else ""
  keyPrefix ++ base64 (baseKey ++ queryString)

/-- Cache configuration as resolved by the `CacheManager` constructor
(lines 5-22), restricted to the fields the write decision reads. -/
structure CacheConfig where
  enabled : Bool
  cacheableStatusCodes : List Nat
  cacheableMethods : List String
deriving DecidableEq, Repr

/-- The constructor defaults: enabled, statuses
`[200, 201, 203, 300, 301, 302, 304]`, methods `GET`/`HEAD`. -/
def defaultCacheConfig : CacheConfig :=
  { enabled := true
    cacheableStatusCodes := [200, 201, 203, 300, 301, 302, 304]
    cacheableMethods := ["GET", "HEAD"] }

/-- A request as the cache sees it: method and header map (Express
lower-cases incoming header names). -/
structure CacheReq where
  method : String
  headers : List (String × String)
deriving DecidableEq, Repr

/-- JS truthiness of `req.headers[name]`: present with a non-empty value. -/
def headerTruthy (headers : List (String × String)) (name : String) : Bool :=
  match headers.lookup name with
  | some v => v ≠ ""
  | none => false

/-- `isCacheable` (lines 155-168): the method must be in
`cacheableMethods` and none of the sensitive headers `authorization`,
`cookie`, `x-api-key` may be (truthily) present. -/
def isCacheable (cfg : CacheConfig) (req : CacheReq) : Bool :=
  if ¬ cfg.cacheableMethods.contains req.method then false
  else if ["authorization", "cookie", "x-api-key"].any
            (fun h => headerTruthy req.headers h) then false
  else true

/-- The composite write decision on the miss path: `middleware()` installs
the caching `res.send`/`res.json` override iff the cache is enabled and
`isCacheable(req)` holds (line 90), and the installed `cacheResponse`
(lines 173-205) then stores the outbound response iff its status code is
in `cacheableStatusCodes` (line 174). No other condition is checked: in
particular the response's `Cache-Control` header is never consulted. -/
def cacheWriteDecision (cfg : CacheConfig) (req : CacheReq) (status : Nat) :
    Bool :=
  cfg.enabled && isCacheable cfg req &&
    cfg.cacheableStatusCodes.contains status

/-- Case-sensitive substring test on strings (as lists of characters). -/
def substrB (needle hay : List Char) : Bool :=
  match hay with
  | [] => needle.isEmpty
  | _ :: t => needle.isPrefixOf hay || substrB needle t

/-- Modelled from the spec: the write-path condition of §4.4 — "cache iff
method ∈ cacheable methods, status ∈ cacheable statuses, request has no
sensitive headers (Authorization, Cookie, API-key), and response lacks
`Cache-Control: no-cache|no-store|private`". The last conjunct has no
counterpart in the source; this definition exists to be compared with
`cacheWriteDecision`. -/
def specCacheWrite (cfg : CacheConfig) (req : CacheReq) (status : Nat)
    (respCacheControl : Option String) : Bool :=
  cfg.cacheableMethods.contains req.method &&
  cfg.cacheableStatusCodes.contains status &&
  !(["authorization", "cookie", "x-api-key"].any
      (fun h => headerTruthy req.headers h)) &&
  !(match respCacheControl with
    | some cc =>
        substrB "no-cache".data cc.data || substrB "no-store".data cc.data ||
        substrB "private".data cc.data
    | none => false)

/-! ## Middleware assembly order (`src/apiGateway.js`) -/

/-- The middleware/route stages the Express app registers, in source
order: `setupMiddleware` (lines 41-83) registers the global middleware and
`setupRoutes` (lines 85-143) mounts the `/api` chain. -/
inductive Stage where
  | helmet
  | cors
  | compression
  | cookieParser
  | jsonBody
  | urlencodedBody
  | requestLog
  | rateLimit
  | security
  | requestTransform
  | authenticate
  | cache
  | cacheInvalidation
  | circuitBreaker
  | router
  | responseTransform
deriving DecidableEq, Repr

/-- `setupMiddleware` (lines 41-83): helmet, cors, compression,
cookie-parser, JSON and urlencoded body parsing, request logging, then —
when rate limiting is enabled — the rate limiter, then the security
middleware, then the request transformer. -/
def setupMiddlewareStages (rateLimitEnabled : Bool) : List Stage :=
  [.helmet, .cors, .compression, .cookieParser, .jsonBody, .urlencodedBody,
   .requestLog] ++
  (if rateLimitEnabled then [.rateLimit] else []) ++
  [.security, .requestTransform]

/-- The `/api` route chain of `setupRoutes` (lines 125-132):
authentication, cache, cache invalidation, circuit breaker, router,
response transformer. -/
def apiRouteStages : List Stage :=
  [.authenticate, .cache, .cacheInvalidation, .circuitBreaker, .router,
   .responseTransform]

/-- The full per-request stage order for an `/api` request: the global
middleware runs before the route chain. -/
def appStages (rateLimitEnabled : Bool) : List Stage :=
  setupMiddlewareStages rateLimitEnabled ++ apiRouteStages

/-- Position of a stage in a stage list (length of the list when the
stage is absent). -/
def stageIdx (l : List Stage) (s : Stage) : Nat :=
  l.findIdx (fun x => x = s)

/-! ## Theorems -/

/-- A concrete resolved circuit-breaker config used by witnesses. -/
def exCBConfig : CBConfig :=
  { timeout := 5000
    errorThreshold := 50
    errorCount := 5
    resetTimeout := 50
    halfOpenRequests := 3 }

/-- A concrete `OPEN` circuit (`lastStateChange = 100`,
`resetTimeout = 50`) used by the C2 witness. -/
def exOpenCircuit : Circuit :=
  { state := .OPEN
    failures := 5
    successes := 0
    lastFailureTime := some 99
    lastStateChange := 100
    halfOpenRequests := 0
    config := exCBConfig }

/-- A concrete `CLOSED` circuit with 4 prior failures and 0 successes
used by the C3 witness. -/
def exClosedCircuit : Circuit :=
  { state := .CLOSED
    failures := 4
    successes := 0
    lastFailureTime := none
    lastStateChange := 0
    halfOpenRequests := 0
    config := exCBConfig }

/-- C2: for every circuit in the `OPEN` state, a request arriving strictly
before `lastStateChange + resetTimeout` is rejected with the circuit left
unchanged (hence still `OPEN`), and a request arriving at or after that
instant proceeds and puts the circuit in `HALF_OPEN`. -/
theorem C2_open_gate (c : Circuit) (now : Nat) (h : c.state = .OPEN) :
    (now < c.lastStateChange + c.config.resetTimeout →
      openGate now c = (.rejected, c)) ∧
    (c.lastStateChange + c.config.resetTimeout ≤ now →
      (openGate now c).1 = .proceed ∧ (openGate now c).2.state = .HALF_OPEN) := by
  rcases c with ⟨st, f, s, lft, lsc, hor, cfg⟩
  simp only at h
  subst h
  dsimp only
  constructor
  · intro hlt
    simp only [openGate]
    rw [if_neg]
    omega
  · intro hge
    simp only [openGate]
    rw [if_pos]
    · exact ⟨rfl, rfl⟩
    · omega

/-- Witness for C2 at `exOpenCircuit`: time 120 (strictly before
`100 + 50`) is rejected leaving the circuit unchanged, time 150
(at the deadline) proceeds into `HALF_OPEN`. -/
theorem C2_open_gate_witness :
    openGate 120 exOpenCircuit = (.rejected, exOpenCircuit) ∧
    (openGate 150 exOpenCircuit).2.state = .HALF_OPEN := by
  refine ⟨(C2_open_gate exOpenCircuit 120 rfl).1 (by decide),
          ((C2_open_gate exOpenCircuit 150 rfl).2 (by decide)).2⟩

/-- C3: a `CLOSED` circuit transitions to `OPEN` on a recorded failure iff
the incremented failure counter reaches `errorCount` and the error rate
computed from the incremented counters reaches `errorThreshold`; and
recording a success while `CLOSED` resets the failure counter to `0`. -/
theorem C3_closed_to_open (now : Nat) (c : Circuit) (h : c.state = .CLOSED) :
    ((recordFailure now c).state = .OPEN ↔
      (c.failures + 1 ≥ c.config.errorCount ∧
       errorRate (c.failures + 1) c.successes ≥ (c.config.errorThreshold : ℚ))) ∧
    (recordSuccess now c).failures = 0 := by
  rcases c with ⟨st, f, s, lft, lsc, hor, cfg⟩
  simp only at h
  subst h
  constructor
  · simp only [recordFailure, transitionToOpen]
    split
    · simpa using ‹_›
    · simp only
      constructor
      · intro hx
        exact absurd hx (by simp)
      · intro hx
        exact absurd hx ‹_›
  · simp [recordSuccess, transitionToClosed]

/-- Witness for C3 at `exClosedCircuit` (4 prior failures, 0 successes,
`errorCount = 5`, `errorThreshold = 50`): a fifth failure (rate 100%)
opens the circuit, and a success resets the failure count. -/
theorem C3_closed_to_open_witness :
    ((recordFailure 7 exClosedCircuit).state = .OPEN ↔
      (exClosedCircuit.failures + 1 ≥ exClosedCircuit.config.errorCount ∧
       errorRate (exClosedCircuit.failures + 1) exClosedCircuit.successes ≥
         (exClosedCircuit.config.errorThreshold : ℚ))) ∧
    (recordSuccess 7 exClosedCircuit).failures = 0 :=
  C3_closed_to_open 7 exClosedCircuit rfl

/-- C9: `transitionToOpen` pushes a state-change log entry whose `from`
field is the new state `OPEN` — for every circuit, whatever state it held
before the transition — because the code mutates `circuit.state` before
reading it to build the log entry. -/
theorem C9_transition_log_from (now : Nat) (c : Circuit) :
    (transitionToOpen now c).2.fromState = .OPEN :=
  rfl

/-- C8 counterexample: loading a configuration with `halfOpenRequests = 0`
is not rejected — the constructor (which performs no validation and never
throws; `mkCBConfig` is total) silently coerces the falsy `0` to the
default `3`, and the per-service resolution in `getCircuit` likewise
replaces a `0` override with the base value. -/
theorem C8_counterexample :
    (mkCBConfig { halfOpenRequests := some 0 }).halfOpenRequests = 3 ∧
    (mkCircuitConfig { halfOpenRequests := some 0 }
      (mkCBConfig {})).halfOpenRequests = 3 := by
  constructor <;> rfl

/-- C8 amended: a configuration with `half_open_requests = 0` is accepted
at load and the value is coerced: the constructor resolves it to the
compiled default `3`, and a per-service `0` override resolves to the
breaker-wide base value. -/
theorem C8_zero_half_open_coerced (cfg : CBUserConfig)
    (h : cfg.halfOpenRequests = some 0) :
    (mkCBConfig cfg).halfOpenRequests = 3 ∧
    ∀ base : CBConfig,
      (mkCircuitConfig cfg base).halfOpenRequests = base.halfOpenRequests := by
  refine ⟨?_, fun base => ?_⟩ <;> simp [mkCBConfig, mkCircuitConfig, orDefault, h]

/-- Witness for C8 amended at the concrete all-default configuration with
`halfOpenRequests = 0`. -/
theorem C8_zero_half_open_coerced_witness :
    (mkCBConfig { halfOpenRequests := some 0 }).halfOpenRequests = 3 ∧
    ∀ base : CBConfig,
      (mkCircuitConfig { halfOpenRequests := some 0 } base).halfOpenRequests =
        base.halfOpenRequests :=
  C8_zero_half_open_coerced { halfOpenRequests := some 0 } rfl

/-- Unfolding of `countAllowed` on a cons, phrased via `activeBucket`. -/
theorem countAllowed_cons (qc : QuotaConfig) (t : Nat) (ts : List Nat)
    (st : Option Quota) :
    countAllowed qc st (t :: ts) =
      (if (activeBucket qc t st).requests + 1 ≤ (activeBucket qc t st).limit
       then 1 else 0) +
      countAllowed qc
        (some { activeBucket qc t st with
                  requests := (activeBucket qc t st).requests + 1 }) ts := by
  simp only [countAllowed, checkQuotaBucket, decide_eq_true_eq]

/-- `activeBucket` keeps a stored bucket that is already in the current
window. -/
theorem activeBucket_same (qc : QuotaConfig) (now : Nat) (q : Quota)
    (h : q.windowStart = windowStartOf qc.windowMs now) :
    activeBucket qc now (some q) = q := by
  simp [activeBucket, h]

/-- Invariant for quota conservation: over any sequence of call times all
in the bucket's own window, the number of allowed results is bounded by
the bucket's remaining capacity. -/
theorem countAllowed_le_capacity (qc : QuotaConfig) (w : Nat) :
    ∀ (ts : List Nat) (q : Quota),
      (∀ t ∈ ts, windowStartOf qc.windowMs t = w) →
      q.windowStart = w →
      countAllowed qc (some q) ts ≤ q.limit - min q.requests q.limit := by
  intro ts
  induction ts with
  | nil => intro q _ _; simp [countAllowed]
  | cons t ts ih =>
      intro q hw hq
      have hwt : windowStartOf qc.windowMs t = w := hw t (by simp)
      have hwts : ∀ t' ∈ ts, windowStartOf qc.windowMs t' = w := by
        intro t' ht'; exact hw t' (by simp [ht'])
      rw [countAllowed_cons, activeBucket_same qc t q (by rw [hq, hwt])]
      have hb := ih { q with requests := q.requests + 1 } hwts (by simpa using hq)
      dsimp only at hb ⊢
      split
      · omega
      · omega

/-- C4: within a single fixed window `w` (all request times compute the
same lazy `windowStart`), the number of requests `checkQuota`'s bucket
update reports as allowed never exceeds the configured limit — for any
starting bucket state whose stored limit (when already in window `w`)
does not exceed the configured one, in particular for a fresh key. -/
theorem C4_quota_conservation (qc : QuotaConfig) (w : Nat) (ts : List Nat)
    (st : Option Quota)
    (hw : ∀ t ∈ ts, windowStartOf qc.windowMs t = w)
    (hst : ∀ q, st = some q → q.windowStart = w → q.limit ≤ qc.maxRequests) :
    countAllowed qc st ts ≤ qc.maxRequests := by
  cases ts with
  | nil => simp [countAllowed]
  | cons t ts =>
      have hwt : windowStartOf qc.windowMs t = w := hw t (by simp)
      have hwts : ∀ t' ∈ ts, windowStartOf qc.windowMs t' = w := by
        intro t' ht'; exact hw t' (by simp [ht'])
      have hfresh : ∀ st' : Option Quota,
          activeBucket qc t st' = freshQuota qc w →
          countAllowed qc st' (t :: ts) ≤ qc.maxRequests := by
        intro st' hact
        rw [countAllowed_cons, hact]
        have hb := countAllowed_le_capacity qc w ts
          { freshQuota qc w with requests := (freshQuota qc w).requests + 1 }
          hwts (by simp [freshQuota])
        simp only [freshQuota] at hb ⊢
        split
        · omega
        · omega
      match st with
      | none => exact hfresh none (by simp [activeBucket, hwt])
      | some q =>
          by_cases hq : q.windowStart = w
          · have hb := countAllowed_le_capacity qc w (t :: ts) q hw hq
            have hl := hst q rfl hq
            omega
          · exact hfresh (some q)
              (by simp [activeBucket, hwt]; exact fun h => absurd h hq)

/-- Witness for C4: window 100 ms, limit 2, four requests at times
0/10/20/30 (all in window 0) against a fresh key — at most 2 allowed
(indeed exactly 2). -/
theorem C4_quota_conservation_witness :
    countAllowed { windowMs := 100, maxRequests := 2 } none [0, 10, 20, 30] ≤ 2 ∧
    countAllowed { windowMs := 100, maxRequests := 2 } none [0, 10, 20, 30] = 2 :=
  ⟨C4_quota_conservation { windowMs := 100, maxRequests := 2 } 0 [0, 10, 20, 30]
      none (by decide) (fun q hq => by simp at hq),
   by decide⟩

/-- C1 counterexample: in the assembled app (rate limiting enabled), the
Security filter does NOT run before the Rate Limiter — `setupMiddleware`
registers the rate limiter (line 75) before the security middleware
(line 79). -/
theorem C1_counterexample :
    ¬ stageIdx (appStages true) .security < stageIdx (appStages true) .rateLimit := by
  decide

/-- C1 amended: for every request the pipeline stages run in the order
Rate Limiter → Security filter → Request Transformer → Auth → Cache
lookup → Circuit Breaker gate → Router instance selection (the security
filter and the rate limiter are swapped relative to the claim). -/
theorem C1_pipeline_order :
    stageIdx (appStages true) .rateLimit < stageIdx (appStages true) .security ∧
    stageIdx (appStages true) .security < stageIdx (appStages true) .requestTransform ∧
    stageIdx (appStages true) .requestTransform < stageIdx (appStages true) .authenticate ∧
    stageIdx (appStages true) .authenticate < stageIdx (appStages true) .cache ∧
    stageIdx (appStages true) .cache < stageIdx (appStages true) .circuitBreaker ∧
    stageIdx (appStages true) .circuitBreaker < stageIdx (appStages true) .router := by
  decide

/-- C10: with no authenticated principal, `checkQuota` returns
`allowed = true` with no quota object and leaves the bucket store
untouched; and in the assembled app the rate limiter stage precedes the
authentication stage, so every request reaches the per-identity quota
check unauthenticated and only the global IP window applies. -/
theorem C10_unauthenticated_quota (perUser perApiKey : QuotaConfig)
    (now : Nat) (st : Option Quota) :
    checkQuota perUser perApiKey none now st =
      ({ allowed := true, quota := none, message := "" }, st) ∧
    stageIdx (appStages true) .rateLimit <
      stageIdx (appStages true) .authenticate :=
  ⟨rfl, by decide⟩

/-- C5 counterexample: two requests with the same method and path whose
query maps are permutations of each other — `?a=1&b=2` versus `?b=2&a=1`
— receive DIFFERENT cache keys: `generateCacheKey` serializes the query
in the object's own iteration order, without sorting (and no
Accept/Accept-Language/Accept-Encoding header participates: the key is a
function of method, path and query only). -/
theorem C5_counterexample :
    generateCacheKey "gateway:" "GET" "/x" [("a", "1"), ("b", "2")] ≠
      generateCacheKey "gateway:" "GET" "/x" [("b", "2"), ("a", "1")] := by
  decide

/-- C5 amended: the cache key is determined by method, path and the query
serialization in the query object's own iteration order (headers play no
part); two requests share a key when their serialized queries coincide
(and are equally empty), while a mere permutation of the query map
generally yields a different key. -/
theorem C5_cache_key_serialization (pfx m p : String)
    (q1 q2 : List (String × String))
    (hne : q1 = [] ↔ q2 = [])
    (hs : urlSearchParamsToString q1 = urlSearchParamsToString q2) :
    generateCacheKey pfx m p q1 = generateCacheKey pfx m p q2 := by
  by_cases h1 : q1 = []
  · have h2 : q2 = [] := hne.mp h1
    subst h1; subst h2; rfl
  · have h2 : q2 ≠ [] := fun h => h1 (hne.mpr h)
    have l1 : 0 < q1.length := List.length_pos.mpr h1
    have l2 : 0 < q2.length := List.length_pos.mpr h2
    simp [generateCacheKey, l1, l2, hs]

/-- Witness for C5 amended at a concrete query list. -/
theorem C5_cache_key_serialization_witness :
    generateCacheKey "gateway:" "GET" "/x" [("a", "1")] =
      generateCacheKey "gateway:" "GET" "/x" [("a", "1")] :=
  C5_cache_key_serialization "gateway:" "GET" "/x" [("a", "1")] [("a", "1")]
    Iff.rfl rfl

/-- C6 counterexample: a GET request with no sensitive headers and a 200
response is cached by the code even when the response carries
`Cache-Control: no-store` — `cacheResponse` checks only the status code
and never consults `Cache-Control` — whereas the claimed write condition
is false there. -/
theorem C6_counterexample :
    cacheWriteDecision defaultCacheConfig { method := "GET", headers := [] }
      200 = true ∧
    specCacheWrite defaultCacheConfig { method := "GET", headers := [] }
      200 (some "no-store") = false := by
  constructor <;> decide

/-- C6 amended: on the outbound (miss-path) response, an entry is written
iff the method is cacheable, the status is cacheable and the request
carries no sensitive header — the response's `Cache-Control` header is
not consulted, so the code's decision equals the spec's condition with
the `Cache-Control` clause dropped (here: with no such header). -/
theorem C6_cache_write_no_cache_control (cfg : CacheConfig) (req : CacheReq)
    (status : Nat) (h : cfg.enabled = true) :
    cacheWriteDecision cfg req status = specCacheWrite cfg req status none := by
  simp only [cacheWriteDecision, isCacheable, specCacheWrite, h, Bool.true_and]
  cases hm : cfg.cacheableMethods.contains req.method <;>
    cases hs : (["authorization", "cookie", "x-api-key"].any
      (fun hd => headerTruthy req.headers hd)) <;>
    cases hst : cfg.cacheableStatusCodes.contains status <;>
    simp [hm, hs, hst]

/-- Witness for C6 amended: a GET request bearing a cookie is not cached,
matching the spec condition without the `Cache-Control` clause. -/
theorem C6_cache_write_no_cache_control_witness :
    cacheWriteDecision defaultCacheConfig
        { method := "GET", headers := [("cookie", "s")] } 200 =
      specCacheWrite defaultCacheConfig
        { method := "GET", headers := [("cookie", "s")] } 200 none :=
  C6_cache_write_no_cache_control defaultCacheConfig
    { method := "GET", headers := [("cookie", "s")] } 200 rfl

/-- A concrete non-API-key principal for the C7 counterexample. -/
def exPrincipal : Principal :=
  { id := "u1", isApiKey := false }

/-- A concrete per-user quota config (window 60 s, limit 1) for C7. -/
def exQuotaCfg : QuotaConfig :=
  { windowMs := 60000, maxRequests := 1 }

/-- A bucket that has already used its whole limit in the current window,
so the next request is denied. -/
def exFullQuota : Quota :=
  { requests := 1, windowStart := 0, resetTime := 60000, limit := 1 }

/-- C7 counterexample: a quota-denied request gets a 429 terminal response
that carries NO headers at all — in particular none of the
`X-RateLimit-Limit/Remaining/Reset` headers that decorate an allowed
request (shown for contrast on a fresh bucket) — the quota numbers appear
only in the JSON body. -/
theorem C7_counterexample :
    (checkQuota exQuotaCfg exQuotaCfg (some exPrincipal) 0
        (some exFullQuota)).1.allowed = false ∧
    quotaGateStatus (quotaGate (checkQuota exQuotaCfg exQuotaCfg
        (some exPrincipal) 0 (some exFullQuota)).1) = 429 ∧
    quotaGateHeaders (quotaGate (checkQuota exQuotaCfg exQuotaCfg
        (some exPrincipal) 0 (some exFullQuota)).1) = [] ∧
    quotaGateHeaders (quotaGate (checkQuota exQuotaCfg exQuotaCfg
        (some exPrincipal) 0 none).1) =
      [("X-RateLimit-Limit", "1"), ("X-RateLimit-Remaining", "0"),
       ("X-RateLimit-Reset", "60000")] := by
  refine ⟨?_, ?_, ?_, ?_⟩ <;> decide

/-- C7 amended: when the rate limiter denies a request it produces a 429
terminal response carrying the quota object (limit/remaining/reset) and a
textual reason in its JSON body; the `X-RateLimit-*` headers are set only
on allow, not on the deny response. -/
theorem C7_deny_response (qr : QuotaResult) (h : qr.allowed = false) :
    quotaGate qr =
      Sum.inl { status := 429
                headers := []
                bodyError := "Quota Exceeded"
                bodyMessage := qr.message
                bodyQuota := qr.quota } := by
  simp [quotaGate, h]

/-- Witness for C7 amended at the concrete denied request of the
counterexample scenario. -/
theorem C7_deny_response_witness :
    quotaGate (checkQuota exQuotaCfg exQuotaCfg (some exPrincipal) 0
        (some exFullQuota)).1 =
      Sum.inl { status := 429
                headers := []
                bodyError := "Quota Exceeded"
                bodyMessage := (checkQuota exQuotaCfg exQuotaCfg
                  (some exPrincipal) 0 (some exFullQuota)).1.message
                bodyQuota := (checkQuota exQuotaCfg exQuotaCfg
                  (some exPrincipal) 0 (some exFullQuota)).1.quota } :=
  C7_deny_response
    (checkQuota exQuotaCfg exQuotaCfg (some exPrincipal) 0
      (some exFullQuota)).1 (by decide)

end ApiGateway

